import Mathlib

/-!
Verification of the `thru` ABI compliance-test scaffolding.

The repository has three Python source files:
* `abi/abi_gen/tests/compliance_tests/generate_test_data.py` — writes binary
  fixtures for arrays, structs, enums and unions using `struct.pack` with
  little-endian formats;
* `abi/abi_gen/tools/generate_primitive_test_binaries.py` — writes
  `AllPrimitives` fixtures with `struct.pack('<BHIQbhiqfd', ...)`;
* `abi/abi_gen/scripts/run_ir_parity_checks.py` — a driver that builds the
  compliance harness, resolves a test directory, invokes the harness and maps
  its result to a process exit code.

This file shallowly embeds those programs: `struct.pack` becomes explicit
little-endian byte-list construction (with an IEEE-754 round-to-nearest-even
model for the `f`/`d` formats), and the driver becomes a pure function from an
abstract environment (build result, filesystem, harness exit code) to an exit
code plus the list of harness invocations it performed.
-/

namespace Thru

set_option maxRecDepth 16000

/-- Little-endian unsigned packing of `v` into `w` bytes: byte `i` is
`v / 256^i % 256`.  Models `struct.pack` with formats `<B`, `<H`, `<I`, `<Q`
(for in-range `v`). -/
def packLE : Nat → Nat → List Nat
  | 0, _ => []
  | w + 1, v => v % 256 :: packLE w (v / 256)

/-- Two's-complement representation of the integer `v` in `w` bytes, as a
natural number. -/
def toTwos (w : Nat) (v : Int) : Nat := (v % ((2 ^ (8 * w) : Nat) : Int)).toNat

/-- Little-endian signed packing: two's complement, then little-endian bytes.
Models `struct.pack` with formats `<b`, `<h`, `<i`, `<q` (for in-range `v`). -/
def packSLE (w : Nat) (v : Int) : List Nat := packLE w (toTwos w v)

/-- Reads a byte list back as a little-endian natural number: the first byte is
the least significant. -/
def fromLEBytes : List Nat → Nat
  | [] => 0
  | b :: bs => b + 256 * fromLEBytes bs

/-! ### IEEE-754 model for `struct.pack` float formats

Python parses a decimal float literal to the nearest IEEE-754 binary64 value
(round to nearest, ties to even) and `struct.pack('<f', x)` further rounds
that binary64 value to binary32.  We model both roundings exactly over
unnormalised nonnegative fractions (plain `Nat` arithmetic, so every
definition reduces by computation inside proofs). -/

/-- An unnormalised nonnegative fraction `num / den` (all uses keep
`den ≠ 0`). -/
structure PosFrac where
  num : Nat
  den : Nat
deriving DecidableEq

/-- A Python float literal: a sign and the exact decimal value `num / den`. -/
structure PyLit where
  neg : Bool
  num : Nat
  den : Nat
deriving DecidableEq

/-- Fuel-driven floor of the base-2 logarithm (fuel-generic so it reduces by
structural recursion; `natLog2F` supplies fuel covering every number the
encoders ever produce). -/
def log2fuel : Nat → Nat → Nat
  | 0, _ => 0
  | fuel + 1, n => if n ≤ 1 then 0 else log2fuel fuel (n / 2) + 1

/-- Floor of the base-2 logarithm for numbers below `2^4200`. -/
def natLog2F (n : Nat) : Nat := log2fuel 4200 n

/-- Comparison `x ≤ y` of fractions by cross-multiplication. -/
def fracLE (x y : PosFrac) : Bool := x.num * y.den ≤ y.num * x.den

/-- `2^e` as a fraction, for an integer exponent. -/
def pow2Frac (e : Int) : PosFrac :=
  if 0 ≤ e then ⟨2 ^ e.toNat, 1⟩ else ⟨1, 2 ^ (-e).toNat⟩

/-- `a * 2^j` as a fraction. -/
def fracMulPow2 (a : PosFrac) (j : Int) : PosFrac :=
  if 0 ≤ j then ⟨a.num * 2 ^ j.toNat, a.den⟩ else ⟨a.num, a.den * 2 ^ (-j).toNat⟩

/-- Nearest natural number to the nonnegative fraction `a`, ties going to the
even one. -/
def fracRoundHalfEven (a : PosFrac) : Nat :=
  let f := a.num / a.den
  let r2 := 2 * (a.num % a.den)
  if r2 < a.den then f
  else if a.den < r2 then f + 1
  else if f % 2 = 0 then f else f + 1

/-- The integer `e` with `2^e ≤ a < 2^(e+1)`, for a positive fraction `a`:
floor log2 of numerator and denominator give two candidates, settled by one
comparison. -/
def fracILog2 (a : PosFrac) : Int :=
  let e0 : Int := (natLog2F a.num : Int) - (natLog2F a.den : Int)
  if fracLE (pow2Frac e0) a then e0 else e0 - 1

/-- IEEE-754 round-to-nearest (ties to even) of the positive fraction `a` in
a format with `ebits` exponent bits and `mbits` stored significand bits:
returns `(m, e)` with rounded value `m * 2^(e - mbits)`; subnormal results
keep `e = emin` with `m < 2^mbits`. -/
def fpRoundCore (ebits mbits : Nat) (a : PosFrac) : Nat × Int :=
  let bias : Int := 2 ^ (ebits - 1) - 1
  let emin : Int := 1 - bias
  let e := fracILog2 a
  if e < emin then
    (fracRoundHalfEven (fracMulPow2 a ((mbits : Int) - emin)), emin)
  else
    let m := fracRoundHalfEven (fracMulPow2 a ((mbits : Int) - e))
    if m = 2 ^ (mbits + 1) then (2 ^ mbits, e + 1) else (m, e)

/-- The IEEE-754 bit pattern (as a natural number) of the value nearest to
`(-1)^neg * a`; overflow goes to infinity. -/
def fpBits (ebits mbits : Nat) (neg : Bool) (a : PosFrac) : Nat :=
  let s : Nat := if neg then 1 else 0
  if a.num = 0 then s * 2 ^ (ebits + mbits)
  else
    let bias : Int := 2 ^ (ebits - 1) - 1
    let me := fpRoundCore ebits mbits a
    if bias < me.2 then s * 2 ^ (ebits + mbits) + (2 ^ ebits - 1) * 2 ^ mbits
    else if me.1 < 2 ^ mbits then s * 2 ^ (ebits + mbits) + me.1
    else s * 2 ^ (ebits + mbits) + (me.2 + bias).toNat * 2 ^ mbits + (me.1 - 2 ^ mbits)

/-- The binary64 value a Python float literal denotes, as `(m, e)` with
magnitude `m * 2^(e - 52)`. -/
def pyFloatDyadic (x : PyLit) : Nat × Int := fpRoundCore 11 52 ⟨x.num, x.den⟩

/-- The magnitude of the binary64 value of the literal, as a fraction. -/
def pyFloatFrac (x : PyLit) : PosFrac :=
  let me := pyFloatDyadic x
  fracMulPow2 ⟨me.1, 1⟩ (me.2 - 52)

/-- Models `struct.pack('<f', x)` for the Python float literal `x`: round to
binary64, then to binary32, then emit the 4 pattern bytes little-endian. -/
def packF32 (x : PyLit) : List Nat := packLE 4 (fpBits 8 23 x.neg (pyFloatFrac x))

/-- Models `struct.pack('<d', x)` for the Python float literal `x`: round to
binary64 and emit the 8 pattern bytes little-endian. -/
def packF64 (x : PyLit) : List Nat := packLE 8 (fpBits 11 52 x.neg (pyFloatFrac x))

/-! ### Fixtures of `tests/compliance_tests/generate_test_data.py`

Each `generate_*` definition below builds the byte list the corresponding
Python function writes to its `.bin` file; `struct.pack` calls with multiple
fields become concatenations of per-field packings. -/

/-- `generate_arrays_simple`: u8[4] = [1,2,3,4], u16[3] = [10,20,30],
u32[2] = [100,200], i32[5] = [-1,0,1,-100,100], all little-endian. -/
def generate_arrays_simple : List Nat :=
  [1, 2, 3, 4]
    ++ (packLE 2 10 ++ packLE 2 20 ++ packLE 2 30)
    ++ (packLE 4 100 ++ packLE 4 200)
    ++ (packSLE 4 (-1) ++ packSLE 4 0 ++ packSLE 4 1 ++ packSLE 4 (-100) ++ packSLE 4 100)

/-- `generate_arrays_zeros`: the same layout with every element zero. -/
def generate_arrays_zeros : List Nat :=
  [0, 0, 0, 0]
    ++ (packLE 2 0 ++ packLE 2 0 ++ packLE 2 0)
    ++ (packLE 4 0 ++ packLE 4 0)
    ++ (packSLE 4 0 ++ packSLE 4 0 ++ packSLE 4 0 ++ packSLE 4 0 ++ packSLE 4 0)

/-- `generate_structs_simple`: id: u64 = 12345, flags: u8 = 0x42,
value: u16 = 9999. -/
def generate_structs_simple : List Nat :=
  packLE 8 12345 ++ packLE 1 0x42 ++ packLE 2 9999

/-- `generate_structs_rectangle`: two `Point2D { x, y : i32 }` corners and a
u32 color. -/
def generate_structs_rectangle : List Nat :=
  (packSLE 4 10 ++ packSLE 4 20) ++ (packSLE 4 100 ++ packSLE 4 80) ++ packLE 4 0xFF0000

/-- `generate_enums_none`: tag byte 0, no payload. -/
def generate_enums_none : List Nat := packLE 1 0

/-- `generate_enums_value`: tag byte 1 then u32 payload 42. -/
def generate_enums_value : List Nat := packLE 1 1 ++ packLE 4 42

/-- `generate_enums_pair`: tag byte 2 then u16 payloads 100 and 200. -/
def generate_enums_pair : List Nat := packLE 1 2 ++ (packLE 2 100 ++ packLE 2 200)

/-- `generate_unions_int`: i32 value -42, no tag byte. -/
def generate_unions_int : List Nat := packSLE 4 (-42)

/-- `generate_unions_float`: f32 value 3.14159, no tag byte. -/
def generate_unions_float : List Nat := packF32 ⟨false, 314159, 100000⟩

/-- `generate_unions_bytes`: raw bytes [0xDE, 0xAD, 0xBE, 0xEF], no tag. -/
def generate_unions_bytes : List Nat := [0xDE, 0xAD, 0xBE, 0xEF]

/-- The file name / byte content pairs written by `generate_test_data.main`,
in call order.  `binaryDir` abstracts `SCRIPT_DIR / "binary_data"`, the only
environment-dependent input (it affects paths, never bytes). -/
def generateTestDataOutputs (binaryDir : String) : List (String × List Nat) :=
  [ (binaryDir ++ "/arrays/simple.bin", generate_arrays_simple),
    (binaryDir ++ "/arrays/all_zeros.bin", generate_arrays_zeros),
    (binaryDir ++ "/structs/simple.bin", generate_structs_simple),
    (binaryDir ++ "/structs/rectangle.bin", generate_structs_rectangle),
    (binaryDir ++ "/enums/none.bin", generate_enums_none),
    (binaryDir ++ "/enums/value.bin", generate_enums_value),
    (binaryDir ++ "/enums/pair.bin", generate_enums_pair),
    (binaryDir ++ "/unions/int_value.bin", generate_unions_int),
    (binaryDir ++ "/unions/float_value.bin", generate_unions_float),
    (binaryDir ++ "/unions/bytes.bin", generate_unions_bytes) ]

/-! ### `tools/generate_primitive_test_binaries.py` -/

/-- `write_binary`'s packing step: `struct.pack('<BHIQbhiqfd', ...)`, the
dense little-endian `AllPrimitives` layout.  Faithful to the Python for
arguments within each format's range (the script only passes such values). -/
def write_binary (u8 u16 u32 u64 : Nat) (i8 i16 i32 i64 : Int)
    (f32 f64 : PyLit) : List Nat :=
  packLE 1 u8 ++ packLE 2 u16 ++ packLE 4 u32 ++ packLE 8 u64
    ++ packSLE 1 i8 ++ packSLE 2 i16 ++ packSLE 4 i32 ++ packSLE 8 i64
    ++ packF32 f32 ++ packF64 f64

/-- The file name / byte content pairs written by
`generate_primitive_test_binaries.main`, in call order.  `outputDir` abstracts
the cwd-relative `tests/compliance_tests/binary_data/primitives` directory. -/
def primitiveOutputs (outputDir : String) : List (String × List Nat) :=
  [ (outputDir ++ "/all_zeros.bin",
      write_binary 0 0 0 0 0 0 0 0 ⟨false, 0, 1⟩ ⟨false, 0, 1⟩),
    (outputDir ++ "/all_max.bin",
      write_binary 255 65535 4294967295 18446744073709551615
        127 32767 2147483647 9223372036854775807
        ⟨false, 34028235 * 10 ^ 31, 1⟩ ⟨false, 17976931348623157 * 10 ^ 292, 1⟩),
    (outputDir ++ "/all_min_signed.bin",
      write_binary 0 0 0 0 (-128) (-32768) (-2147483648) (-9223372036854775808)
        ⟨true, 34028235 * 10 ^ 31, 1⟩ ⟨true, 17976931348623157 * 10 ^ 292, 1⟩),
    (outputDir ++ "/common_values.bin",
      write_binary 42 1000 0x12345678 0x123456789ABCDEF0
        (-42) (-1234) (-123456) (-123456789)
        ⟨false, 314159, 100000⟩ ⟨false, 2718281828459045, 10 ^ 15⟩),
    (outputDir ++ "/u32_0x12345678.bin",
      write_binary 0 0 0x12345678 0 0 0 0 0 ⟨false, 0, 1⟩ ⟨false, 0, 1⟩),
    (outputDir ++ "/u64_bigint.bin",
      write_binary 0 0 0 0x123456789ABCDEF0 0 0 0 0 ⟨false, 0, 1⟩ ⟨false, 0, 1⟩),
    (outputDir ++ "/float_values.bin",
      write_binary 0 0 0 0 0 0 0 0
        ⟨false, 314159265, 100000000⟩ ⟨false, 2718281828459045, 10 ^ 15⟩) ]

/-- Field sizes of `AllPrimitives`, in declaration order. -/
def allPrimitivesSizes : List Nat := [1, 2, 4, 8, 1, 2, 4, 8, 4, 8]

/-- Field offsets of `AllPrimitives` as documented in the script header. -/
def allPrimitivesOffsets : List Nat := [0, 1, 3, 7, 15, 16, 18, 22, 30, 34]

/-- Field sizes of `SimpleStruct` (u64, u8, u16). -/
def simpleStructSizes : List Nat := [8, 1, 2]

/-- Field offsets of `SimpleStruct`. -/
def simpleStructOffsets : List Nat := [0, 8, 9]

/-! ### `scripts/run_ir_parity_checks.py`

The driver is modelled as a pure function of an abstract environment: the
result of `cargo build`, a path-existence predicate for the filesystem, and
the harness process's exit code.  Its result is the process exit code together
with the list of harness command lines it invoked. -/

/-- Parsed command-line arguments of the driver. -/
structure DriverArgs where
  verbose : Bool
  testDir : Option String
  output : Option String
  buildOnly : Bool

/-- The environment the driver observes: whether `cargo build --release`
succeeds, which paths exist, and the harness process's return code. -/
structure DriverEnv where
  buildOk : Bool
  pathExists : String → Bool
  harnessReturnCode : Nat

/-- Path of the harness binary relative to the project root
(`run_parity_checks`, lines 69-72). -/
def harnessBinaryPath (root : String) : String :=
  root ++ "/tests/compliance_harness_rust/target/release/compliance_harness"

/-- `find_compliance_tests_dir`: the `test_cases` directory when it exists,
else the `tests` directory. -/
def findComplianceTestsDir (env : DriverEnv) (root : String) : String :=
  let testsDir := root ++ "/tests/compliance_tests/test_cases"
  if env.pathExists testsDir then testsDir else root ++ "/tests"

/-- Test-directory resolution in `main`: an explicit `--test-dir` is used as
given when absolute and joined to the project root otherwise; with no
`--test-dir` the default lookup applies. -/
def resolveTestDir (env : DriverEnv) (root : String) (args : DriverArgs) : String :=
  match args.testDir with
  | some td => if td.startsWith "/" then td else root ++ "/" ++ td
  | none => findComplianceTestsDir env root

/-- The harness command line built in `run_parity_checks` (lines 78-82). -/
def harnessCmd (binary testDir : String) (verbose : Bool) (output : Option String) :
    List String :=
  [binary, testDir, "--parity"]
    ++ (if verbose then ["--verbose"] else [])
    ++ (match output with
        | some f => ["--output", f]
        | none => [])

/-- Result of `run_parity_checks`: the boolean it returns and the harness
invocations it performed. -/
structure RunResult where
  success : Bool
  invocations : List (List String)

/-- `run_parity_checks`: returns `False` without invoking anything when the
harness binary is missing; otherwise invokes the harness once and returns
whether its return code is zero. -/
def run_parity_checks (env : DriverEnv) (root testDir : String) (verbose : Bool)
    (output : Option String) : RunResult :=
  let binary := harnessBinaryPath root
  if env.pathExists binary then
    { success := env.harnessReturnCode == 0,
      invocations := [harnessCmd binary testDir verbose output] }
  else
    { success := false, invocations := [] }

/-- Outcome of one driver run: the `sys.exit` code and the harness
invocations performed. -/
structure DriverResult where
  exitCode : Nat
  invocations : List (List String)

/-- `main` of `run_ir_parity_checks.py`: build, optional `--build-only` stop,
test-directory existence check, then the parity run, with each `sys.exit`
mapped to an exit code. -/
def driverMain (env : DriverEnv) (root : String) (args : DriverArgs) : DriverResult :=
  if env.buildOk = false then { exitCode := 1, invocations := [] }
  else if args.buildOnly then { exitCode := 0, invocations := [] }
  else
    let testDir := resolveTestDir env root args
    if env.pathExists testDir = false then { exitCode := 1, invocations := [] }
    else
      let r := run_parity_checks env root testDir args.verbose args.output
      { exitCode := if r.success then 0 else 1, invocations := r.invocations }

/-- A sample environment: the build succeeds, every path exists and the
harness exits 0. -/
def envAllOk : DriverEnv :=
  { buildOk := true, pathExists := fun _ => true, harnessReturnCode := 0 }

/-- A sample environment whose `cargo build` fails. -/
def envBuildFail : DriverEnv :=
  { buildOk := false, pathExists := fun _ => true, harnessReturnCode := 0 }

/-- A sample environment where the build succeeds but no path exists. -/
def envNoPaths : DriverEnv :=
  { buildOk := true, pathExists := fun _ => false, harnessReturnCode := 0 }

/-- Driver arguments with no flag set. -/
def argsDefault : DriverArgs :=
  { verbose := false, testDir := none, output := none, buildOnly := false }

/-! ## Theorems -/

theorem packLE_length (w v : Nat) : (packLE w v).length = w := by
  induction w generalizing v with
  | zero => rfl
  | succ w ih => simp [packLE, ih]

theorem packSLE_length (w : Nat) (v : Int) : (packSLE w v).length = w := by
  simp [packSLE, packLE_length]

theorem packF32_length (x : PyLit) : (packF32 x).length = 4 := packLE_length 4 _

theorem packF64_length (x : PyLit) : (packF64 x).length = 8 := packLE_length 8 _

/-- Little-endianness of `packLE`: reading the bytes back least-significant
first recovers the value. -/
theorem fromLEBytes_packLE (w v : Nat) (h : v < 256 ^ w) :
    fromLEBytes (packLE w v) = v := by
  induction w generalizing v with
  | zero =>
    have : v = 0 := Nat.lt_one_iff.mp (by simpa using h)
    simp [this, packLE, fromLEBytes]
  | succ w ih =>
    have hv : v / 256 < 256 ^ w := by
      have : v < 256 ^ w * 256 := by
        simpa [Nat.pow_succ] using h
      exact Nat.div_lt_of_lt_mul (by omega)
    simp [packLE, fromLEBytes, ih _ hv]
    omega

/-- The two's-complement representation always fits the byte width. -/
theorem toTwos_lt (w : Nat) (v : Int) : toTwos w v < 256 ^ w := by
  have hpos : (0 : Int) < ((2 ^ (8 * w) : Nat) : Int) := by positivity
  have hlt := Int.emod_lt_of_pos v hpos
  have hge := Int.emod_nonneg v (by positivity :
    ((2 ^ (8 * w) : Nat) : Int) ≠ 0)
  have hpow : (2 : Nat) ^ (8 * w) = 256 ^ w := by
    rw [pow_mul]
    norm_num
  unfold toTwos
  omega

/-- C1: the generated enum fixtures are exactly a 1-byte tag followed by the
little-endian payload of the selected variant: `None` is exactly `[0x00]`
(1 byte), `Value(42)` is exactly `[0x01, 0x2A, 0x00, 0x00, 0x00]` (5 bytes)
and `Pair(100, 200)` is exactly `[0x02, 0x64, 0x00, 0xC8, 0x00]` (5 bytes). -/
theorem enum_fixtures_tag_then_payload :
    generate_enums_none = [0x00] ∧
    generate_enums_none.length = 1 ∧
    generate_enums_value = [0x01, 0x2A, 0x00, 0x00, 0x00] ∧
    generate_enums_value.length = 5 ∧
    generate_enums_pair = [0x02, 0x64, 0x00, 0xC8, 0x00] ∧
    generate_enums_pair.length = 5 := by
  decide

/-- C2: every generated union fixture holds exactly the bytes of the active
variant and no discriminant byte: the `int_value = -42` fixture is exactly the
4-byte two's-complement little-endian encoding `[0xD6, 0xFF, 0xFF, 0xFF]`, the
f32 fixture is exactly the 4 bytes of `3.14159` as binary32, and the byte
array fixture is exactly its 4 raw bytes. -/
theorem union_fixtures_untagged :
    generate_unions_int = [0xD6, 0xFF, 0xFF, 0xFF] ∧
    generate_unions_int = packSLE 4 (-42) ∧
    generate_unions_int.length = 4 ∧
    generate_unions_float = [0xD0, 0x0F, 0x49, 0x40] ∧
    generate_unions_float = packF32 ⟨false, 314159, 100000⟩ ∧
    generate_unions_float.length = 4 ∧
    generate_unions_bytes = [0xDE, 0xAD, 0xBE, 0xEF] ∧
    generate_unions_bytes.length = 4 := by
  decide

/-- C5: the simple fixed-array fixture is exactly the concatenation of the
little-endian element encodings — u8[4], u16[3], u32[2], i32[5] — with no
length prefix or header: 4 + 6 + 8 + 20 = 38 raw bytes. -/
theorem array_fixture_raw_elements :
    generate_arrays_simple =
      [0x01, 0x02, 0x03, 0x04,
       0x0A, 0x00, 0x14, 0x00, 0x1E, 0x00,
       0x64, 0x00, 0x00, 0x00, 0xC8, 0x00, 0x00, 0x00,
       0xFF, 0xFF, 0xFF, 0xFF, 0x00, 0x00, 0x00, 0x00, 0x01, 0x00, 0x00, 0x00,
       0x9C, 0xFF, 0xFF, 0xFF, 0x64, 0x00, 0x00, 0x00] ∧
    generate_arrays_simple.length = 38 ∧
    4 * 1 + 3 * 2 + 2 * 4 + 5 * 4 = 38 := by
  decide

/-- C3: encoding the u32 value 0x12345678 yields the little-endian bytes
`[0x78, 0x56, 0x34, 0x12]`; those four bytes sit at offset 3 of the
`u32_0x12345678.bin` fixture; and the integer packers are little-endian
throughout: reading any packed value back least-significant-byte-first
recovers it (modulo two's complement for the signed packer). -/
theorem u32_little_endian :
    packLE 4 0x12345678 = [0x78, 0x56, 0x34, 0x12] ∧
    ((write_binary 0 0 0x12345678 0 0 0 0 0 ⟨false, 0, 1⟩ ⟨false, 0, 1⟩).drop 3).take 4 =
      [0x78, 0x56, 0x34, 0x12] ∧
    (∀ w v, v < 256 ^ w → fromLEBytes (packLE w v) = v) ∧
    (∀ w v, fromLEBytes (packSLE w v) = toTwos w v) :=
  ⟨by decide, by decide, fromLEBytes_packLE,
    fun w v => fromLEBytes_packLE w _ (toTwos_lt w v)⟩

/-- Witness for C3 at the concrete input 0x12345678 packed into 4 bytes. -/
theorem u32_little_endian_witness :
    305419896 < 256 ^ 4 ∧ fromLEBytes (packLE 4 305419896) = 305419896 :=
  ⟨by decide, u32_little_endian.2.2.1 4 305419896 (by decide)⟩

/-- C4: struct fixtures are densely packed with no padding: the
`AllPrimitives` image is always exactly 42 bytes — the sum of the field
sizes — and each field occupies the slice starting at the sum of the sizes of
the preceding fields, at offsets 0,1,3,7,15,16,18,22,30,34; the
`SimpleStruct` fixture (u64, u8, u16) is exactly 11 bytes with its fields at
offsets 0, 8, 9. -/
theorem dense_packing
    (u8 u16 u32 u64 : Nat) (i8 i16 i32 i64 : Int) (f32 f64 : PyLit)
    (wb : List Nat)
    (hwb : wb = write_binary u8 u16 u32 u64 i8 i16 i32 i64 f32 f64)
    (_hu8 : u8 < 2 ^ 8) (_hu16 : u16 < 2 ^ 16) (_hu32 : u32 < 2 ^ 32)
    (_hu64 : u64 < 2 ^ 64)
    (_hi8l : -(2 ^ 7) ≤ i8) (_hi8u : i8 < 2 ^ 7)
    (_hi16l : -(2 ^ 15) ≤ i16) (_hi16u : i16 < 2 ^ 15)
    (_hi32l : -(2 ^ 31) ≤ i32) (_hi32u : i32 < 2 ^ 31)
    (_hi64l : -(2 ^ 63) ≤ i64) (_hi64u : i64 < 2 ^ 63) :
    wb.length = 42 ∧
    allPrimitivesSizes.sum = 42 ∧
    allPrimitivesOffsets = (List.range 10).map (fun k => (allPrimitivesSizes.take k).sum) ∧
    (wb.drop 0).take 1 = packLE 1 u8 ∧
    (wb.drop 1).take 2 = packLE 2 u16 ∧
    (wb.drop 3).take 4 = packLE 4 u32 ∧
    (wb.drop 7).take 8 = packLE 8 u64 ∧
    (wb.drop 15).take 1 = packSLE 1 i8 ∧
    (wb.drop 16).take 2 = packSLE 2 i16 ∧
    (wb.drop 18).take 4 = packSLE 4 i32 ∧
    (wb.drop 22).take 8 = packSLE 8 i64 ∧
    (wb.drop 30).take 4 = packF32 f32 ∧
    wb.drop 34 = packF64 f64 ∧
    generate_structs_simple.length = 11 ∧
    simpleStructSizes.sum = 11 ∧
    simpleStructOffsets = (List.range 3).map (fun k => (simpleStructSizes.take k).sum) ∧
    (generate_structs_simple.drop 0).take 8 = packLE 8 12345 ∧
    (generate_structs_simple.drop 8).take 1 = packLE 1 0x42 ∧
    (generate_structs_simple.drop 9).take 2 = packLE 2 9999 := by
  subst hwb
  have e0 : write_binary u8 u16 u32 u64 i8 i16 i32 i64 f32 f64 =
      packLE 1 u8 ++ (packLE 2 u16 ++ (packLE 4 u32 ++ (packLE 8 u64 ++ (packSLE 1 i8 ++
        (packSLE 2 i16 ++ (packSLE 4 i32 ++ (packSLE 8 i64 ++
          (packF32 f32 ++ packF64 f64)))))))) := by
    simp [write_binary, List.append_assoc]
  have d1 : (write_binary u8 u16 u32 u64 i8 i16 i32 i64 f32 f64).drop 1 =
      packLE 2 u16 ++ (packLE 4 u32 ++ (packLE 8 u64 ++ (packSLE 1 i8 ++
        (packSLE 2 i16 ++ (packSLE 4 i32 ++ (packSLE 8 i64 ++
          (packF32 f32 ++ packF64 f64))))))) := by
    rw [e0]; exact List.drop_left' (packLE_length 1 u8)
  have d3 : (write_binary u8 u16 u32 u64 i8 i16 i32 i64 f32 f64).drop 3 =
      packLE 4 u32 ++ (packLE 8 u64 ++ (packSLE 1 i8 ++ (packSLE 2 i16 ++
        (packSLE 4 i32 ++ (packSLE 8 i64 ++ (packF32 f32 ++ packF64 f64)))))) := by
    have h : (write_binary u8 u16 u32 u64 i8 i16 i32 i64 f32 f64).drop 3 =
        ((write_binary u8 u16 u32 u64 i8 i16 i32 i64 f32 f64).drop 1).drop 2 := by
      simp [List.drop_drop]
    rw [h, d1]; exact List.drop_left' (packLE_length 2 u16)
  have d7 : (write_binary u8 u16 u32 u64 i8 i16 i32 i64 f32 f64).drop 7 =
      packLE 8 u64 ++ (packSLE 1 i8 ++ (packSLE 2 i16 ++ (packSLE 4 i32 ++
        (packSLE 8 i64 ++ (packF32 f32 ++ packF64 f64))))) := by
    have h : (write_binary u8 u16 u32 u64 i8 i16 i32 i64 f32 f64).drop 7 =
        ((write_binary u8 u16 u32 u64 i8 i16 i32 i64 f32 f64).drop 3).drop 4 := by
      simp [List.drop_drop]
    rw [h, d3]; exact List.drop_left' (packLE_length 4 u32)
  have d15 : (write_binary u8 u16 u32 u64 i8 i16 i32 i64 f32 f64).drop 15 =
      packSLE 1 i8 ++ (packSLE 2 i16 ++ (packSLE 4 i32 ++ (packSLE 8 i64 ++
        (packF32 f32 ++ packF64 f64)))) := by
    have h : (write_binary u8 u16 u32 u64 i8 i16 i32 i64 f32 f64).drop 15 =
        ((write_binary u8 u16 u32 u64 i8 i16 i32 i64 f32 f64).drop 7).drop 8 := by
      simp [List.drop_drop]
    rw [h, d7]; exact List.drop_left' (packLE_length 8 u64)
  have d16 : (write_binary u8 u16 u32 u64 i8 i16 i32 i64 f32 f64).drop 16 =
      packSLE 2 i16 ++ (packSLE 4 i32 ++ (packSLE 8 i64 ++
        (packF32 f32 ++ packF64 f64))) := by
    have h : (write_binary u8 u16 u32 u64 i8 i16 i32 i64 f32 f64).drop 16 =
        ((write_binary u8 u16 u32 u64 i8 i16 i32 i64 f32 f64).drop 15).drop 1 := by
      simp [List.drop_drop]
    rw [h, d15]; exact List.drop_left' (packSLE_length 1 i8)
  have d18 : (write_binary u8 u16 u32 u64 i8 i16 i32 i64 f32 f64).drop 18 =
      packSLE 4 i32 ++ (packSLE 8 i64 ++ (packF32 f32 ++ packF64 f64)) := by
    have h : (write_binary u8 u16 u32 u64 i8 i16 i32 i64 f32 f64).drop 18 =
        ((write_binary u8 u16 u32 u64 i8 i16 i32 i64 f32 f64).drop 16).drop 2 := by
      simp [List.drop_drop]
    rw [h, d16]; exact List.drop_left' (packSLE_length 2 i16)
  have d22 : (write_binary u8 u16 u32 u64 i8 i16 i32 i64 f32 f64).drop 22 =
      packSLE 8 i64 ++ (packF32 f32 ++ packF64 f64) := by
    have h : (write_binary u8 u16 u32 u64 i8 i16 i32 i64 f32 f64).drop 22 =
        ((write_binary u8 u16 u32 u64 i8 i16 i32 i64 f32 f64).drop 18).drop 4 := by
      simp [List.drop_drop]
    rw [h, d18]; exact List.drop_left' (packSLE_length 4 i32)
  have d30 : (write_binary u8 u16 u32 u64 i8 i16 i32 i64 f32 f64).drop 30 =
      packF32 f32 ++ packF64 f64 := by
    have h : (write_binary u8 u16 u32 u64 i8 i16 i32 i64 f32 f64).drop 30 =
        ((write_binary u8 u16 u32 u64 i8 i16 i32 i64 f32 f64).drop 22).drop 8 := by
      simp [List.drop_drop]
    rw [h, d22]; exact List.drop_left' (packSLE_length 8 i64)
  have d34 : (write_binary u8 u16 u32 u64 i8 i16 i32 i64 f32 f64).drop 34 =
      packF64 f64 := by
    have h : (write_binary u8 u16 u32 u64 i8 i16 i32 i64 f32 f64).drop 34 =
        ((write_binary u8 u16 u32 u64 i8 i16 i32 i64 f32 f64).drop 30).drop 4 := by
      simp [List.drop_drop]
    rw [h, d30]; exact List.drop_left' (packF32_length f32)
  refine ⟨?_, by decide, by decide, ?_, ?_, ?_, ?_, ?_, ?_, ?_, ?_, ?_, d34,
    by decide, by decide, by decide, by decide, by decide, by decide⟩
  · simp [write_binary, packLE_length, packSLE_length, packF32_length, packF64_length]
  · rw [List.drop_zero, e0]; exact List.take_left' (packLE_length 1 u8)
  · rw [d1]; exact List.take_left' (packLE_length 2 u16)
  · rw [d3]; exact List.take_left' (packLE_length 4 u32)
  · rw [d7]; exact List.take_left' (packLE_length 8 u64)
  · rw [d15]; exact List.take_left' (packSLE_length 1 i8)
  · rw [d16]; exact List.take_left' (packSLE_length 2 i16)
  · rw [d18]; exact List.take_left' (packSLE_length 4 i32)
  · rw [d22]; exact List.take_left' (packSLE_length 8 i64)
  · rw [d30]; exact List.take_left' (packF32_length f32)

/-- Witness for C4 at the `common_values.bin` arguments. -/
theorem dense_packing_witness :
    (write_binary 42 1000 0x12345678 0x123456789ABCDEF0 (-42) (-1234) (-123456)
      (-123456789) ⟨false, 314159, 100000⟩ ⟨false, 2718281828459045, 10 ^ 15⟩).length = 42 :=
  (dense_packing 42 1000 0x12345678 0x123456789ABCDEF0 (-42) (-1234) (-123456)
    (-123456789) ⟨false, 314159, 100000⟩ ⟨false, 2718281828459045, 10 ^ 15⟩ _ rfl
    (by decide) (by decide) (by decide) (by decide) (by decide) (by decide)
    (by decide) (by decide) (by decide) (by decide) (by decide) (by decide)).1

/-- C9: fixture generation is deterministic — the byte contents written by
both generator scripts are fixed constants, independent of the directory the
environment supplies (and hence identical across runs). -/
theorem fixture_generation_deterministic :
    (∀ d1 d2 : String,
      (generateTestDataOutputs d1).map Prod.snd = (generateTestDataOutputs d2).map Prod.snd) ∧
    (∀ c1 c2 : String,
      (primitiveOutputs c1).map Prod.snd = (primitiveOutputs c2).map Prod.snd) ∧
    (generateTestDataOutputs "dir").length = 10 ∧
    (primitiveOutputs "dir").length = 7 :=
  ⟨fun _ _ => rfl, fun _ _ => rfl, rfl, rfl⟩

/-- C6: in a run that gets past the build (and is not `--build-only`) with an
existing test directory, the driver exits 0 exactly when the harness binary
exists and the invoked harness returned 0, and exits 1 in every other case. -/
theorem driver_exit_mirrors_harness (env : DriverEnv) (root : String) (args : DriverArgs)
    (hb : env.buildOk = true) (hbo : args.buildOnly = false)
    (hd : env.pathExists (resolveTestDir env root args) = true) :
    (driverMain env root args).exitCode =
      (if env.pathExists (harnessBinaryPath root) = true ∧ env.harnessReturnCode = 0
       then 0 else 1) ∧
    ((driverMain env root args).exitCode = 0 ↔
      env.pathExists (harnessBinaryPath root) = true ∧ env.harnessReturnCode = 0) := by
  have hmain : (driverMain env root args).exitCode =
      (if env.pathExists (harnessBinaryPath root) = true ∧ env.harnessReturnCode = 0
       then 0 else 1) := by
    by_cases hbin : env.pathExists (harnessBinaryPath root) = true <;>
      by_cases hrc : env.harnessReturnCode = 0 <;>
        simp [driverMain, run_parity_checks, hb, hbo, hd, hbin, hrc]
  refine ⟨hmain, ?_⟩
  rw [hmain]
  by_cases hok : env.pathExists (harnessBinaryPath root) = true ∧ env.harnessReturnCode = 0 <;>
    simp [hok]

/-- Witness for C6: with everything succeeding the driver exits 0. -/
theorem driver_exit_mirrors_harness_witness :
    (driverMain envAllOk "root" argsDefault).exitCode = 0 := by
  have h := driver_exit_mirrors_harness envAllOk "root" argsDefault rfl rfl rfl
  exact h.2.mpr ⟨rfl, rfl⟩

/-- C7: when the resolved test-case directory does not exist (in a run that
got past the build and is not `--build-only`), the driver exits 1 without
ever invoking the compliance harness. -/
theorem missing_corpus_fatal (env : DriverEnv) (root : String) (args : DriverArgs)
    (hb : env.buildOk = true) (hbo : args.buildOnly = false)
    (hd : env.pathExists (resolveTestDir env root args) = false) :
    (driverMain env root args).exitCode = 1 ∧
    (driverMain env root args).invocations = [] := by
  constructor <;> simp [driverMain, hb, hbo, hd]

/-- Witness for C7: in an environment with no existing paths the driver
exits 1 and performs no harness invocation. -/
theorem missing_corpus_fatal_witness :
    (driverMain envNoPaths "root" argsDefault).exitCode = 1 ∧
    (driverMain envNoPaths "root" argsDefault).invocations = [] :=
  missing_corpus_fatal envNoPaths "root" argsDefault rfl rfl rfl

/-- C8: the harness command line is built deterministically from the driver's
arguments: the one invocation performed is the harness binary, then the test
directory, then `--parity`, with `--verbose` appended exactly when the
driver's verbose flag is set and `--output FILE` appended exactly when an
output file is given; in any such command the first three entries are the
binary, the test directory and `--parity`. -/
theorem harness_cmdline_deterministic (env : DriverEnv) (root : String) (args : DriverArgs)
    (hb : env.buildOk = true) (hbo : args.buildOnly = false)
    (hd : env.pathExists (resolveTestDir env root args) = true)
    (hbin : env.pathExists (harnessBinaryPath root) = true) :
    (driverMain env root args).invocations =
      [[harnessBinaryPath root, resolveTestDir env root args, "--parity"]
        ++ (if args.verbose then ["--verbose"] else [])
        ++ (match args.output with
            | some f => ["--output", f]
            | none => [])] ∧
    (∀ b td v o, (harnessCmd b td v o).take 3 = [b, td, "--parity"]) ∧
    (∀ b td v o, (harnessCmd b td v o).length =
      3 + (if v then 1 else 0) + (match o with | some _ => 2 | none => 0)) := by
  refine ⟨?_, fun b td v o => by cases v <;> cases o <;> rfl, fun b td v o => ?_⟩
  · simp [driverMain, run_parity_checks, harnessCmd, hb, hbo, hd, hbin]
  · cases v <;> cases o <;> simp [harnessCmd]

/-- Witness for C8: with `--verbose` and `--output out.json` the recorded
command is binary, test dir, `--parity`, `--verbose`, `--output`, `out.json`. -/
theorem harness_cmdline_deterministic_witness :
    (driverMain envAllOk "root" ⟨true, none, some "out.json", false⟩).invocations =
      [[harnessBinaryPath "root",
        resolveTestDir envAllOk "root" ⟨true, none, some "out.json", false⟩,
        "--parity", "--verbose", "--output", "out.json"]] := by
  have h := harness_cmdline_deterministic envAllOk "root"
    ⟨true, none, some "out.json", false⟩ rfl rfl rfl rfl
  simpa using h.1

/-- C10: with `--build-only` the driver exits 0 right after a successful
build and never invokes the harness; and whenever the build fails the driver
exits 1 without invoking the harness, whatever the other flags are. -/
theorem build_gating (env : DriverEnv) (root : String) (args : DriverArgs) :
    (env.buildOk = true → args.buildOnly = true →
      (driverMain env root args).exitCode = 0 ∧
      (driverMain env root args).invocations = []) ∧
    (env.buildOk = false →
      (driverMain env root args).exitCode = 1 ∧
      (driverMain env root args).invocations = []) := by
  constructor
  · intro hb hbo
    constructor <;> simp [driverMain, hb, hbo]
  · intro hb
    constructor <;> simp [driverMain, hb]

/-- Witness for C10: both branches at concrete environments. -/
theorem build_gating_witness :
    ((driverMain envAllOk "root" ⟨false, none, none, true⟩).exitCode = 0 ∧
      (driverMain envAllOk "root" ⟨false, none, none, true⟩).invocations = []) ∧
    ((driverMain envBuildFail "root" argsDefault).exitCode = 1 ∧
      (driverMain envBuildFail "root" argsDefault).invocations = []) :=
  ⟨(build_gating envAllOk "root" ⟨false, none, none, true⟩).1 rfl rfl,
   (build_gating envBuildFail "root" argsDefault).2 rfl⟩

end Thru
